import Mathlib

/-!
Verification development for `scripts/generate_transactions.py`, a synthetic
transaction-CSV generator.  The script is embedded shallowly: every random
primitive (`random.randint`, `random.choice`, `random.random() < p`,
`random.choices` with weights) is modelled by an explicit draw parameter, so
each row builder becomes a pure function of the row index and a bundle of
draws.  The CSV layer (minimal quoting, comma joining) and the decimal
rendering of integers are embedded as executable functions as well.
-/

namespace GenTx

/-- Model of `random.randint(a, b)`: the draw `k` selects a value, and every
value of `[a, b]` is selected by some `k` (for `a ≤ b`). -/
def randint (a b k : Nat) : Nat := a + k % (b - a + 1)

/-- Model of `random.choice(xs)`: the draw `k` selects an element of `xs`;
`d` is a default that is never used when `xs` is nonempty. -/
def choiceD {α : Type} (xs : List α) (d : α) (k : Nat) : α :=
  xs.getD (k % xs.length) d

/-- `TxLimit` mirrors the `TxLimit` dataclass: transaction type with its
configured inclusive amount bounds. -/
structure TxLimit where
  tx_type : String
  min_amount : Nat
  max_amount : Nat
deriving DecidableEq

/-- `TRANSACTION_LIMITS` from the script (types and IDR amount bounds). -/
def TRANSACTION_LIMITS : List TxLimit :=
  [⟨"TRANSFER",   10000, 1000000000⟩,
   ⟨"PAYMENT",     1000,  500000000⟩,
   ⟨"TOPUP",      10000,   50000000⟩,
   ⟨"WITHDRAWAL", 50000,   20000000⟩]

/-- Default `TxLimit`, used only to totalize lookups that cannot fail. -/
def TX0 : TxLimit := ⟨"", 0, 0⟩

/-- `TX_LIMIT_MAP[t]`: dictionary lookup by transaction type (total via a
default that is never hit for configured types). -/
def tx_limit_of (t : String) : TxLimit :=
  (TRANSACTION_LIMITS.find? (fun l => l.tx_type == t)).getD TX0

/-- `VALID_BANK_CODES` from the script. -/
def VALID_BANK_CODES : List String :=
  ["BCA", "BNI", "BRI", "MANDIRI", "CIMB", "DANAMON", "PERMATA", "BTN", "BSI", "OCBC"]

/-- `INVALID_BANK_CODES` from the script. -/
def INVALID_BANK_CODES : List String :=
  ["XENDIT", "GOPAY", "OVO", "DANA", "FAKE_BANK"]

/-- `MockAccount` mirrors the `MockAccount` dataclass. -/
structure MockAccount where
  account_number : String
  account_name : String
  bank_code : String
  status : String
deriving DecidableEq

/-- Default `MockAccount`, used only to totalize list indexing. -/
def ACC0 : MockAccount := ⟨"", "", "", ""⟩

/-- `SEEDED_ACCOUNTS` from the script. -/
def SEEDED_ACCOUNTS : List MockAccount :=
  [⟨"1234567890", "Budi Santoso",   "BCA",     "ACTIVE"⟩,
   ⟨"0987654321", "Siti Rahayu",    "BNI",     "ACTIVE"⟩,
   ⟨"1122334455", "Ahmad Fauzi",    "BRI",     "ACTIVE"⟩,
   ⟨"5544332211", "Dewi Lestari",   "MANDIRI", "ACTIVE"⟩,
   ⟨"6677889900", "Rudi Hermawan",  "CIMB",    "INACTIVE"⟩,
   ⟨"9900112233", "Rina Kusuma",    "DANAMON", "ACTIVE"⟩,
   ⟨"3344556677", "Hendra Gunawan", "PERMATA", "BLOCKED"⟩,
   ⟨"7788990011", "Yuni Astuti",    "BTN",     "ACTIVE"⟩,
   ⟨"2233445566", "Fajar Nugroho",  "BSI",     "ACTIVE"⟩,
   ⟨"4455667788", "Indah Permata",  "OCBC",    "ACTIVE"⟩,
   ⟨"1357924680", "Wahyu Prasetyo", "BCA",     "ACTIVE"⟩,
   ⟨"2468013579", "Maya Sari",      "BRI",     "ACTIVE"⟩,
   ⟨"1111222233", "Doni Kurniawan", "MANDIRI", "ACTIVE"⟩,
   ⟨"4444555566", "Lina Marlina",   "BNI",     "INACTIVE"⟩,
   ⟨"7777888899", "Agus Salim",     "BSI",     "ACTIVE"⟩]

/-- `ACTIVE_ACCOUNTS = [a for a in SEEDED_ACCOUNTS if a.status == "ACTIVE"]`. -/
def ACTIVE_ACCOUNTS : List MockAccount :=
  SEEDED_ACCOUNTS.filter (fun a => a.status == "ACTIVE")

/-- `INACTIVE_ACCOUNTS` from the script. -/
def INACTIVE_ACCOUNTS : List MockAccount :=
  SEEDED_ACCOUNTS.filter (fun a => a.status == "INACTIVE")

/-- `BLOCKED_ACCOUNTS` from the script. -/
def BLOCKED_ACCOUNTS : List MockAccount :=
  SEEDED_ACCOUNTS.filter (fun a => a.status == "BLOCKED")

/-- `NOTES` from the script (the empty strings model "no note"). -/
def NOTES : List String :=
  ["Monthly salary", "Invoice #4521", "Gift transfer", "Loan repayment",
   "School fees", "Business payment", "Online purchase", "Utility bill",
   "Insurance premium", "Subscription renewal", "", "", ""]

/-- The set comprehension `{a.account_number for a in SEEDED_ACCOUNTS}` used by
`unknown_account_number` (as a list; only membership matters). -/
def seeded_numbers : List String := SEEDED_ACCOUNTS.map (fun a => a.account_number)

/-- The character for decimal digit `d` (for `d < 10`). -/
def digitChar (d : Nat) : Char := Char.ofNat (48 + d)

/-- Decimal digits of `n`, most significant first; `fuel` bounds the recursion
and any `fuel > n` is sufficient. -/
def natDigitsAux : Nat → Nat → List Char
  | 0, _ => []
  | fuel + 1, n =>
      if n < 10 then [digitChar n]
      else natDigitsAux fuel (n / 10) ++ [digitChar (n % 10)]

/-- Decimal digits of `n`, most significant first (no leading zeros). -/
def natDigits (n : Nat) : List Char := natDigitsAux (n + 1) n

/-- Python `str(n)` for a nonnegative integer `n`. -/
def natToStr (n : Nat) : String := String.mk (natDigits n)

/-- The numeric value of a digit string, as read by Python `int` on digit
strings: fold each character into the accumulator. -/
def digitsVal (cs : List Char) : Nat :=
  cs.foldl (fun a c => 10 * a + (c.toNat - 48)) 0

/-- Python `f"{n:07d}"` at the digit level: left-pad the decimal digits of `n`
with `'0'` to a minimum width of 7. -/
def pad7digits (n : Nat) : List Char :=
  List.replicate (7 - (natDigits n).length) '0' ++ natDigits n

/-- Reference id `f"TRX-{i:07d}"` assigned to row `i`. -/
def refId (i : Nat) : String := String.mk ('T' :: 'R' :: 'X' :: '-' :: pad7digits i)

/-- The numeric part of a reference id: drop the 4 characters `TRX-` and read
the rest as an integer. -/
def refNum (s : String) : Nat := digitsVal (s.data.drop 4)

/-- csv `QUOTE_MINIMAL`: a field needs quoting iff it contains the delimiter,
the quote character, or a line-terminator character. -/
def needsQuote (s : String) : Bool :=
  s.data.any (fun c => c == ',' || c == '\x22' || c == '\n' || c == '\r')

/-- Double every quote character in a field (csv quote escaping). -/
def escapeQuotes (s : String) : String :=
  String.mk (s.data.foldr (fun c acc => if c == '\x22' then '\x22' :: '\x22' :: acc else c :: acc) [])

/-- Serialize one csv field under `QUOTE_MINIMAL`. -/
def csvField (s : String) : String :=
  if needsQuote s then "\x22" ++ escapeQuotes s ++ "\x22" else s

/-- Serialize one csv record: fields joined by `,` (the line terminator is not
included; line content is what the claims are about). -/
def csvLine (fs : List String) : String :=
  match fs with
  | [] => ""
  | f :: rest => rest.foldl (fun acc g => acc ++ ("," ++ csvField g)) (csvField f)

/-- One output record, before csv serialization, mirroring the field order of
the row builders. -/
structure Row where
  ref : String
  srcAcct : String
  srcName : String
  srcBank : String
  beneAcct : String
  beneName : String
  beneBank : String
  currency : String
  amount : Nat
  txType : String
  note : String

/-- The csv writer applies `str` to the integer amount; all other fields are
already strings. -/
def rowFields (r : Row) : List String :=
  [r.ref, r.srcAcct, r.srcName, r.srcBank,
   r.beneAcct, r.beneName, r.beneBank,
   r.currency, natToStr r.amount, r.txType, r.note]

/-- The bundle of random draws one loop iteration can consume.  Each call site
of the `random` module in a builder is modelled by its own field: `coin` is the
result of `random.random() < invalid_rate`, `wsel` drives the weighted choice
among invalid builders, `k1`–`k6` drive `random.choice`/`random.randint`
calls, `flip` is a `random.random() < 0.5` side choice, and `u`/`ufuel` feed
the redraw loop of `unknown_account_number`. -/
structure Draws where
  coin : Bool
  wsel : Nat
  k1 : Nat
  k2 : Nat
  k3 : Nat
  k4 : Nat
  k5 : Nat
  k6 : Nat
  flip : Bool
  u : Nat → Nat
  ufuel : Nat

/-- A fixed all-zero draw bundle (used for concrete evaluations). -/
def draws0 : Draws :=
  { coin := false, wsel := 0, k1 := 0, k2 := 0, k3 := 0, k4 := 0, k5 := 0,
    k6 := 0, flip := false, u := fun _ => 0, ufuel := 0 }

/-- A constant draw oracle. -/
def oracle0 : Nat → Draws := fun _ => draws0

/-- `pick_valid_amount`: look up the limits of the type and draw inside them. -/
def pick_valid_amount (tx_type : String) (k : Nat) : Nat :=
  let limit := tx_limit_of tx_type
  randint limit.min_amount limit.max_amount k

/-- `pick_below_min_amount`: `0` when the configured minimum is `≤ 1`,
otherwise a draw in `[1, min_amount - 1]`. -/
def pick_below_min_amount (tx_type : String) (k : Nat) : Nat :=
  let limit := tx_limit_of tx_type
  if limit.min_amount ≤ 1 then 0 else randint 1 (limit.min_amount - 1) k

/-- Bounds of `random.randint(5_000_000_000, 9_999_999_999)` inside
`unknown_account_number`. -/
def UNKNOWN_MIN : Nat := 5000000000

/-- Upper bound of the `unknown_account_number` draw range. -/
def UNKNOWN_MAX : Nat := 9999999999

/-- One candidate draw of `unknown_account_number`:
`str(random.randint(5_000_000_000, 9_999_999_999))` before the seeded-set
check, as a number. -/
def unknown_candidate (k : Nat) : Nat := randint UNKNOWN_MIN UNKNOWN_MAX k

/-- `unknown_account_number`: redraw until the candidate is not a seeded
account number.  The loop is modelled by taking the first index of the draw
stream `u` whose candidate passes the check; the hypothesis states that such
an index exists (this is the termination condition of the `while True` loop). -/
def unknown_account_number (u : Nat → Nat)
    (h : ∃ j, natToStr (unknown_candidate (u j)) ∉ seeded_numbers) : String :=
  natToStr (unknown_candidate (u (Nat.find h)))

/-- The same redraw loop cut at `fuel` redraws, used to keep the whole
generation pipeline total; when a non-colliding candidate occurs within the
first `fuel` draws this agrees with the uncut loop, and the fallback (return
the current candidate) is never reached on such streams. -/
def unknown_try (u : Nat → Nat) : Nat → Nat → String
  | 0, j => natToStr (unknown_candidate (u j))
  | fuel + 1, j =>
      let s := natToStr (unknown_candidate (u j))
      if s ∈ seeded_numbers then unknown_try u fuel (j + 1) else s

/-- `build_valid_row`: both accounts ACTIVE and distinct, seeded bank codes,
amount within the limits of the chosen type. -/
def build_valid_row (i : Nat) (d : Draws) : Row :=
  let t := choiceD TRANSACTION_LIMITS TX0 d.k1
  let src := choiceD ACTIVE_ACCOUNTS ACC0 d.k2
  let bene := choiceD (ACTIVE_ACCOUNTS.filter (fun a => decide (a ≠ src))) ACC0 d.k3
  let amount := pick_valid_amount t.tx_type d.k4
  { ref := refId i
  , srcAcct := src.account_number, srcName := src.account_name, srcBank := src.bank_code
  , beneAcct := bene.account_number, beneName := bene.account_name, beneBank := bene.bank_code
  , currency := "IDR", amount := amount, txType := t.tx_type
  , note := choiceD NOTES "" d.k6 }

/-- `build_invalid_bank_code_row`: draw a bad bank code; set the source bank
to it when the coin (`random.random() < 0.5`) fires, and set the beneficiary
bank to it exactly when the source bank was left untouched. -/
def build_invalid_bank_code_row (i : Nat) (d : Draws) : Row :=
  let t := choiceD TRANSACTION_LIMITS TX0 d.k1
  let src := choiceD ACTIVE_ACCOUNTS ACC0 d.k2
  let bene := choiceD ACTIVE_ACCOUNTS ACC0 d.k3
  let amount := pick_valid_amount t.tx_type d.k4
  let bad_bank := choiceD INVALID_BANK_CODES "" d.k5
  let src_bank := if d.flip then bad_bank else src.bank_code
  let bene_bank := if src_bank = src.bank_code then bad_bank else bene.bank_code
  { ref := refId i
  , srcAcct := src.account_number, srcName := src.account_name, srcBank := src_bank
  , beneAcct := bene.account_number, beneName := bene.account_name, beneBank := bene_bank
  , currency := "IDR", amount := amount, txType := t.tx_type
  , note := choiceD NOTES "" d.k6 }

/-- `build_inactive_account_row`: one side INACTIVE, the other ACTIVE, the
side chosen by a coin. -/
def build_inactive_account_row (i : Nat) (d : Draws) : Row :=
  let t := choiceD TRANSACTION_LIMITS TX0 d.k1
  let amount := pick_valid_amount t.tx_type d.k4
  let bad := choiceD INACTIVE_ACCOUNTS ACC0 d.k2
  let good := choiceD ACTIVE_ACCOUNTS ACC0 d.k3
  let src := if d.flip then bad else good
  let bene := if d.flip then good else bad
  { ref := refId i
  , srcAcct := src.account_number, srcName := src.account_name, srcBank := src.bank_code
  , beneAcct := bene.account_number, beneName := bene.account_name, beneBank := bene.bank_code
  , currency := "IDR", amount := amount, txType := t.tx_type
  , note := choiceD NOTES "" d.k6 }

/-- `build_blocked_account_row`: one side BLOCKED, the other ACTIVE. -/
def build_blocked_account_row (i : Nat) (d : Draws) : Row :=
  let t := choiceD TRANSACTION_LIMITS TX0 d.k1
  let amount := pick_valid_amount t.tx_type d.k4
  let bad := choiceD BLOCKED_ACCOUNTS ACC0 d.k2
  let good := choiceD ACTIVE_ACCOUNTS ACC0 d.k3
  let src := if d.flip then bad else good
  let bene := if d.flip then good else bad
  { ref := refId i
  , srcAcct := src.account_number, srcName := src.account_name, srcBank := src.bank_code
  , beneAcct := bene.account_number, beneName := bene.account_name, beneBank := bene.bank_code
  , currency := "IDR", amount := amount, txType := t.tx_type
  , note := choiceD NOTES "" d.k6 }

/-- `build_unknown_account_row`: one side replaced with a synthesized
account number (redraw loop, cut form) and name `"Unknown Person"`, paired
with a valid bank code. -/
def build_unknown_account_row (i : Nat) (d : Draws) : Row :=
  let t := choiceD TRANSACTION_LIMITS TX0 d.k1
  let amount := pick_valid_amount t.tx_type d.k4
  let good := choiceD ACTIVE_ACCOUNTS ACC0 d.k3
  let unknown_no := unknown_try d.u d.ufuel 0
  let unknown_bank := choiceD VALID_BANK_CODES "" d.k5
  { ref := refId i
  , srcAcct := if d.flip then unknown_no else good.account_number
  , srcName := if d.flip then "Unknown Person" else good.account_name
  , srcBank := if d.flip then unknown_bank else good.bank_code
  , beneAcct := if d.flip then good.account_number else unknown_no
  , beneName := if d.flip then good.account_name else "Unknown Person"
  , beneBank := if d.flip then good.bank_code else unknown_bank
  , currency := "IDR", amount := amount, txType := t.tx_type
  , note := choiceD NOTES "" d.k6 }

/-- `build_below_minimum_amount_row`: like a valid row but with the amount
drawn below the minimum of the chosen type. -/
def build_below_minimum_amount_row (i : Nat) (d : Draws) : Row :=
  let t := choiceD TRANSACTION_LIMITS TX0 d.k1
  let src := choiceD ACTIVE_ACCOUNTS ACC0 d.k2
  let bene := choiceD (ACTIVE_ACCOUNTS.filter (fun a => decide (a ≠ src))) ACC0 d.k3
  let amount := pick_below_min_amount t.tx_type d.k4
  { ref := refId i
  , srcAcct := src.account_number, srcName := src.account_name, srcBank := src.bank_code
  , beneAcct := bene.account_number, beneName := bene.account_name, beneBank := bene.bank_code
  , currency := "IDR", amount := amount, txType := t.tx_type
  , note := choiceD NOTES "" d.k6 }

/-- `pick_invalid_row`: categorical choice among the five invalid builders
with weights 30/25/15/20/10 (the draw reduced mod 100 falls into the matching
cumulative bucket). -/
def pick_invalid_row (i : Nat) (d : Draws) : Row :=
  let w := d.wsel % 100
  if w < 30 then build_invalid_bank_code_row i d
  else if w < 55 then build_inactive_account_row i d
  else if w < 70 then build_blocked_account_row i d
  else if w < 90 then build_unknown_account_row i d
  else build_below_minimum_amount_row i d

/-- One iteration of the writer loop: draw the valid/invalid coin, then build
the row for index `i`. -/
def row_at (i : Nat) (d : Draws) : Row :=
  if d.coin then pick_invalid_row i d else build_valid_row i d

/-- The header list written first by `main`. -/
def header : List String :=
  ["Reference ID",
   "Source Account", "Source Account Name", "Source Bank Code",
   "Beneficiary Account", "Beneficiary Account Name", "Beneficiary Bank Code",
   "Currency", "Amount", "Transaction Type", "Note"]

/-- The data rows of one run: the loop `for i in range(1, rows + 1)` with the
per-iteration draws supplied by the oracle `o`. -/
def gen_rows (n : Nat) (o : Nat → Draws) : List Row :=
  (List.range' 1 n).map (fun i => row_at i (o i))

/-- The lines of the output file of one run: the header line followed by one
csv line per data row. -/
def gen_lines (n : Nat) (o : Nat → Draws) : List String :=
  csvLine header :: (gen_rows n o).map (fun r => csvLine (rowFields r))

/-- The run with `--rows` taken as a parsed integer: Python
`range(1, rows + 1)` is empty for any `rows < 0`, so the data-row count is
`rows.toNat`. -/
def gen_lines_int (rows : Int) (o : Nat → Draws) : List String :=
  gen_lines rows.toNat o

/-- Model of Python `int(s)` as invoked by argparse for `type=int` on an
optionally signed digit string (the conversion that validates `--rows`). -/
def parse_int (s : String) : Option Int :=
  match s.data with
  | [] => none
  | '-' :: ds =>
      if !ds.isEmpty && ds.all Char.isDigit then some (-(digitsVal ds : Int)) else none
  | '+' :: ds =>
      if !ds.isEmpty && ds.all Char.isDigit then some ((digitsVal ds : Int)) else none
  | ds =>
      if ds.all Char.isDigit then some ((digitsVal ds : Int)) else none

/-- A 64-bit mixing step, the base of the seed-indexed draw stream below. -/
def mix (s : Nat) : Nat :=
  (6364136223846793005 * s + 1442695040888963407) % 18446744073709551616

/-- Modelled from the spec: `random.seed(N)` makes every subsequent draw a
deterministic function of `N` alone, so the draw stream is modelled as a pure
seed-indexed sequence (the concrete mixing function is a stand-in; the claims
using it depend only on its determinism). -/
def prngAt (seed : Nat) : Nat → Nat
  | 0 => mix seed
  | n + 1 => mix (prngAt seed n)

/-- The draw oracle of a seeded run: every field of the per-row bundle is a
function of the seed (and of the clamped invalid rate, scaled to `[0, 2^53]`,
for the valid/invalid coin). -/
def seeded_oracle (seed rateScaled : Nat) (i : Nat) : Draws :=
  { coin := decide (prngAt seed (12 * i) % 9007199254740992 < rateScaled)
  , wsel := prngAt seed (12 * i + 1)
  , k1 := prngAt seed (12 * i + 2)
  , k2 := prngAt seed (12 * i + 3)
  , k3 := prngAt seed (12 * i + 4)
  , k4 := prngAt seed (12 * i + 5)
  , k5 := prngAt seed (12 * i + 6)
  , k6 := prngAt seed (12 * i + 7)
  , flip := decide (prngAt seed (12 * i + 8) % 2 = 0)
  , u := fun j => prngAt (prngAt seed (12 * i + 9)) j
  , ufuel := prngAt seed (12 * i + 10) % 1000 }

/-- One full seeded run: output lines as a function of `--rows`,
`--invalid-rate` (scaled) and `--seed`. -/
def run_with_seed (rows rateScaled seed : Nat) : List String :=
  gen_lines rows (seeded_oracle seed rateScaled)

/-- The header string exactly as the spec prints it, with a space after each
comma (spec-side definition, to be compared with the code's header line). -/
def specClaimedHeaderLine : String :=
  "Reference ID, Source Account, Source Account Name, Source Bank Code, Beneficiary Account, Beneficiary Account Name, Beneficiary Bank Code, Currency, Amount, Transaction Type, Note"

set_option maxRecDepth 40000

theorem choiceD_mem {α : Type} (xs : List α) (d : α) (k : Nat) (h : xs ≠ []) :
    choiceD xs d k ∈ xs := by
  have hl : 0 < xs.length := List.length_pos.mpr h
  have hk : k % xs.length < xs.length := Nat.mod_lt _ hl
  rw [choiceD, List.getD_eq_getElem?_getD, List.getElem?_eq_getElem hk, Option.getD_some]
  exact List.getElem_mem hk

theorem randint_bounds (a b k : Nat) (h : a ≤ b) :
    a ≤ randint a b k ∧ randint a b k ≤ b := by
  have hm : k % (b - a + 1) < b - a + 1 := Nat.mod_lt _ (Nat.succ_pos _)
  unfold randint
  omega

theorem randint_hit (a b v : Nat) (h1 : a ≤ v) (h2 : v ≤ b) :
    randint a b (v - a) = v := by
  unfold randint
  rw [Nat.mod_eq_of_lt (by omega)]
  omega

theorem active_ne_nil : ACTIVE_ACCOUNTS ≠ [] := by decide

theorem active_filter_ne_nil :
    ∀ s ∈ ACTIVE_ACCOUNTS, ACTIVE_ACCOUNTS.filter (fun a => decide (a ≠ s)) ≠ [] := by
  decide

theorem active_numbers_distinct :
    ∀ a ∈ ACTIVE_ACCOUNTS, ∀ b ∈ ACTIVE_ACCOUNTS,
      a ≠ b → a.account_number ≠ b.account_number := by
  decide

theorem tx_lookup_eq : ∀ t ∈ TRANSACTION_LIMITS, tx_limit_of t.tx_type = t := by
  decide

theorem tx_min_le_max : ∀ t ∈ TRANSACTION_LIMITS, t.min_amount ≤ t.max_amount := by
  decide

theorem active_bank_not_invalid :
    ∀ a ∈ ACTIVE_ACCOUNTS, a.bank_code ∉ INVALID_BANK_CODES := by
  decide

theorem pick_valid_amount_bounds (t : TxLimit) (ht : t ∈ TRANSACTION_LIMITS) (k : Nat) :
    t.min_amount ≤ pick_valid_amount t.tx_type k ∧
      pick_valid_amount t.tx_type k ≤ t.max_amount := by
  simp only [pick_valid_amount]
  rw [tx_lookup_eq t ht]
  exact randint_bounds _ _ _ (tx_min_le_max t ht)

theorem valid_row_distinct (i : Nat) (d : Draws) :
    (build_valid_row i d).srcAcct ≠ (build_valid_row i d).beneAcct := by
  have hsrc : choiceD ACTIVE_ACCOUNTS ACC0 d.k2 ∈ ACTIVE_ACCOUNTS :=
    choiceD_mem _ _ _ active_ne_nil
  have hbene0 :
      choiceD (ACTIVE_ACCOUNTS.filter
          (fun a => decide (a ≠ choiceD ACTIVE_ACCOUNTS ACC0 d.k2))) ACC0 d.k3
        ∈ ACTIVE_ACCOUNTS.filter
          (fun a => decide (a ≠ choiceD ACTIVE_ACCOUNTS ACC0 d.k2)) :=
    choiceD_mem _ _ _ (active_filter_ne_nil _ hsrc)
  obtain ⟨hbA, hbne⟩ := List.mem_filter.mp hbene0
  exact active_numbers_distinct _ hsrc _ hbA (Ne.symm (of_decide_eq_true hbne))

/-- C1: every row produced by `build_valid_row` has source and beneficiary
account numbers present in the seeded ACTIVE set, the two account numbers are
distinct, each side carries that account's seeded bank code, and the amount
lies within the configured `[min_amount, max_amount]` of the chosen
transaction type. -/
theorem C1_valid_row_well_formed (i : Nat) (d : Draws) :
    (∃ a ∈ ACTIVE_ACCOUNTS, (build_valid_row i d).srcAcct = a.account_number ∧
        (build_valid_row i d).srcBank = a.bank_code) ∧
    (∃ b ∈ ACTIVE_ACCOUNTS, (build_valid_row i d).beneAcct = b.account_number ∧
        (build_valid_row i d).beneBank = b.bank_code) ∧
    (build_valid_row i d).srcAcct ≠ (build_valid_row i d).beneAcct ∧
    (∃ t ∈ TRANSACTION_LIMITS, (build_valid_row i d).txType = t.tx_type ∧
        t.min_amount ≤ (build_valid_row i d).amount ∧
        (build_valid_row i d).amount ≤ t.max_amount) := by
  have hsrc : choiceD ACTIVE_ACCOUNTS ACC0 d.k2 ∈ ACTIVE_ACCOUNTS :=
    choiceD_mem _ _ _ active_ne_nil
  have hbene0 :
      choiceD (ACTIVE_ACCOUNTS.filter
          (fun a => decide (a ≠ choiceD ACTIVE_ACCOUNTS ACC0 d.k2))) ACC0 d.k3
        ∈ ACTIVE_ACCOUNTS.filter
          (fun a => decide (a ≠ choiceD ACTIVE_ACCOUNTS ACC0 d.k2)) :=
    choiceD_mem _ _ _ (active_filter_ne_nil _ hsrc)
  obtain ⟨hbA, _⟩ := List.mem_filter.mp hbene0
  have ht : choiceD TRANSACTION_LIMITS TX0 d.k1 ∈ TRANSACTION_LIMITS :=
    choiceD_mem _ _ _ (by decide)
  exact ⟨⟨_, hsrc, rfl, rfl⟩, ⟨_, hbA, rfl, rfl⟩, valid_row_distinct i d,
    ⟨_, ht, rfl, (pick_valid_amount_bounds _ ht d.k4).1,
      (pick_valid_amount_bounds _ ht d.k4).2⟩⟩

/-- Closed instance of `C1_valid_row_well_formed` at a concrete input. -/
theorem C1_valid_row_well_formed_witness :
    (build_valid_row 1 draws0).srcAcct ≠ (build_valid_row 1 draws0).beneAcct :=
  (C1_valid_row_well_formed 1 draws0).2.2.1

theorem bank_pair_exactly_one (flip : Bool) (bad sb bb : String)
    (hbad : bad ∈ INVALID_BANK_CODES) (hsb : sb ∉ INVALID_BANK_CODES)
    (hbb : bb ∉ INVALID_BANK_CODES) :
    ((if flip then bad else sb) ∈ INVALID_BANK_CODES ∨
      (if (if flip then bad else sb) = sb then bad else bb) ∈ INVALID_BANK_CODES) ∧
    ¬((if flip then bad else sb) ∈ INVALID_BANK_CODES ∧
      (if (if flip then bad else sb) = sb then bad else bb) ∈ INVALID_BANK_CODES) := by
  have hne : bad ≠ sb := fun e => hsb (e ▸ hbad)
  cases flip with
  | true =>
    rw [if_pos rfl, if_neg hne]
    exact ⟨Or.inl hbad, fun h => hbb h.2⟩
  | false =>
    rw [if_neg Bool.false_ne_true, if_pos rfl]
    exact ⟨Or.inr hbad, fun h => hsb h.1⟩

/-- C2 (behavior actually implemented): in every row from
`build_invalid_bank_code_row` exactly one of the two bank codes comes from the
invalid set — never both, and never neither — and the amount is within the
configured bounds of the chosen type.  The beneficiary side is corrupted
exactly when the source side is not, so the two sides are not independent and
the both-corrupted case of the claim is impossible. -/
theorem C2_invalid_bank_corrupts_exactly_one_side (i : Nat) (d : Draws) :
    ((build_invalid_bank_code_row i d).srcBank ∈ INVALID_BANK_CODES ∨
      (build_invalid_bank_code_row i d).beneBank ∈ INVALID_BANK_CODES) ∧
    ¬((build_invalid_bank_code_row i d).srcBank ∈ INVALID_BANK_CODES ∧
      (build_invalid_bank_code_row i d).beneBank ∈ INVALID_BANK_CODES) ∧
    (∃ t ∈ TRANSACTION_LIMITS, (build_invalid_bank_code_row i d).txType = t.tx_type ∧
        t.min_amount ≤ (build_invalid_bank_code_row i d).amount ∧
        (build_invalid_bank_code_row i d).amount ≤ t.max_amount) := by
  have hsrc : choiceD ACTIVE_ACCOUNTS ACC0 d.k2 ∈ ACTIVE_ACCOUNTS :=
    choiceD_mem _ _ _ active_ne_nil
  have hbene : choiceD ACTIVE_ACCOUNTS ACC0 d.k3 ∈ ACTIVE_ACCOUNTS :=
    choiceD_mem _ _ _ active_ne_nil
  have hbad : choiceD INVALID_BANK_CODES "" d.k5 ∈ INVALID_BANK_CODES :=
    choiceD_mem _ _ _ (by decide)
  have ht : choiceD TRANSACTION_LIMITS TX0 d.k1 ∈ TRANSACTION_LIMITS :=
    choiceD_mem _ _ _ (by decide)
  have hpair := bank_pair_exactly_one d.flip (choiceD INVALID_BANK_CODES "" d.k5)
    (choiceD ACTIVE_ACCOUNTS ACC0 d.k2).bank_code
    (choiceD ACTIVE_ACCOUNTS ACC0 d.k3).bank_code
    hbad (active_bank_not_invalid _ hsrc) (active_bank_not_invalid _ hbene)
  exact ⟨hpair.1, hpair.2,
    ⟨_, ht, rfl, (pick_valid_amount_bounds _ ht d.k4).1,
      (pick_valid_amount_bounds _ ht d.k4).2⟩⟩

/-- C10: `build_invalid_bank_code_row` applies no distinctness constraint
between the two sides — the all-zero draw bundle already yields a row whose
source and beneficiary account numbers coincide — while `build_valid_row`
always produces distinct source and beneficiary account numbers. -/
theorem C10_invalid_bank_row_allows_equal_accounts :
    ((build_invalid_bank_code_row 1 draws0).srcAcct =
      (build_invalid_bank_code_row 1 draws0).beneAcct) ∧
    ∀ (i : Nat) (d : Draws),
      (build_valid_row i d).srcAcct ≠ (build_valid_row i d).beneAcct :=
  ⟨by decide, fun i d => valid_row_distinct i d⟩

/-- Closed instance of the universal part of
`C10_invalid_bank_row_allows_equal_accounts` at a concrete input. -/
theorem C10_invalid_bank_row_allows_equal_accounts_witness :
    (build_valid_row 2 draws0).srcAcct ≠ (build_valid_row 2 draws0).beneAcct :=
  C10_invalid_bank_row_allows_equal_accounts.2 2 draws0

theorem digitChar_toNat (d : Nat) (h : d < 10) : (digitChar d).toNat = 48 + d := by
  interval_cases d <;> rfl

theorem digitsVal_append_last (cs : List Char) (c : Char) :
    digitsVal (cs ++ [c]) = 10 * digitsVal cs + (c.toNat - 48) := by
  simp [digitsVal, List.foldl_append]

theorem digitsVal_natDigitsAux (n : Nat) :
    ∀ fuel, n < fuel → digitsVal (natDigitsAux fuel n) = n := by
  induction n using Nat.strong_induction_on with
  | _ n ih =>
    intro fuel hf
    cases fuel with
    | zero => omega
    | succ fuel =>
      by_cases h10 : n < 10
      · rw [natDigitsAux, if_pos h10]
        have he := digitChar_toNat n h10
        simp [digitsVal, he]
      · rw [natDigitsAux, if_neg h10, digitsVal_append_last]
        have hdl : n / 10 < n := Nat.div_lt_self (by omega) (by omega)
        rw [ih (n / 10) hdl fuel (by omega),
          digitChar_toNat (n % 10) (Nat.mod_lt _ (by omega))]
        omega

theorem digitsVal_natDigits (n : Nat) : digitsVal (natDigits n) = n :=
  digitsVal_natDigitsAux n (n + 1) (Nat.lt_succ_self n)

theorem foldl_zero_replicate (k : Nat) :
    List.foldl (fun a c => 10 * a + (c.toNat - 48)) 0 (List.replicate k '0') = 0 := by
  induction k with
  | zero => rfl
  | succ k ih => simpa [List.replicate_succ] using ih

theorem digitsVal_pad7digits (n : Nat) : digitsVal (pad7digits n) = n := by
  rw [pad7digits, digitsVal, List.foldl_append, foldl_zero_replicate]
  exact digitsVal_natDigits n

theorem refNum_refId (i : Nat) : refNum (refId i) = i :=
  digitsVal_pad7digits i

theorem refId_injective : Function.Injective refId := by
  intro a b h
  have h2 : pad7digits a = pad7digits b := by
    have hd : ('T' :: 'R' :: 'X' :: '-' :: pad7digits a)
        = ('T' :: 'R' :: 'X' :: '-' :: pad7digits b) := congrArg String.data h
    simpa using hd
  have h3 := congrArg digitsVal h2
  rwa [digitsVal_pad7digits, digitsVal_pad7digits] at h3

theorem natDigitsAux_length (d : Nat) :
    ∀ n fuel, n < fuel → 10 ^ d ≤ n → n < 10 ^ (d + 1) →
      (natDigitsAux fuel n).length = d + 1 := by
  induction d with
  | zero =>
    intro n fuel hf h1 h2
    cases fuel with
    | zero => omega
    | succ fuel =>
      have h10 : n < 10 := by simpa using h2
      rw [natDigitsAux, if_pos h10]
      rfl
  | succ d ih =>
    intro n fuel hf h1 h2
    cases fuel with
    | zero => omega
    | succ fuel =>
      have hbig : (10 : Nat) ≤ 10 ^ (d + 1) := by
        calc (10 : Nat) = 10 ^ 1 := (pow_one 10).symm
        _ ≤ 10 ^ (d + 1) := Nat.pow_le_pow_right (by omega) (by omega)
      have h10 : ¬ n < 10 := by omega
      rw [natDigitsAux, if_neg h10, List.length_append]
      have hd1 : 10 ^ d ≤ n / 10 := by
        rw [Nat.le_div_iff_mul_le (by omega)]
        calc 10 ^ d * 10 = 10 ^ (d + 1) := (pow_succ 10 d).symm
        _ ≤ n := h1
      have hd2 : n / 10 < 10 ^ (d + 1) := by
        rw [Nat.div_lt_iff_lt_mul (by omega)]
        calc n < 10 ^ (d + 1 + 1) := h2
        _ = 10 ^ (d + 1) * 10 := pow_succ 10 (d + 1)
      have hdf : n / 10 < fuel := by
        have hlt : n / 10 < n := Nat.div_lt_self (by omega) (by omega)
        omega
      rw [ih (n / 10) fuel hdf hd1 hd2]
      simp

theorem natToStr_length_ten (n : Nat) (h1 : 1000000000 ≤ n) (h2 : n ≤ 9999999999) :
    (natToStr n).length = 10 := by
  have h := natDigitsAux_length 9 n (n + 1) (Nat.lt_succ_self n)
    (by norm_num; omega) (by norm_num; omega)
  simpa [natToStr, natDigits, String.length] using h

theorem natDigitsAux_digit_range :
    ∀ fuel n c, c ∈ natDigitsAux fuel n → 48 ≤ c.toNat ∧ c.toNat ≤ 57 := by
  intro fuel
  induction fuel with
  | zero =>
    intro n c hc
    simp [natDigitsAux] at hc
  | succ fuel ih =>
    intro n c hc
    rw [natDigitsAux] at hc
    by_cases h10 : n < 10
    · rw [if_pos h10] at hc
      simp at hc
      subst hc
      rw [digitChar_toNat n h10]
      omega
    · rw [if_neg h10] at hc
      rcases List.mem_append.mp hc with h | h
      · exact ih _ _ h
      · simp at h
        subst h
        rw [digitChar_toNat (n % 10) (Nat.mod_lt _ (by omega))]
        omega

theorem digit_range_no_quote (c : Char) (h1 : 48 ≤ c.toNat) (h2 : c.toNat ≤ 57) :
    (c == ',' || c == '\x22' || c == '\n' || c == '\r') = false := by
  have hc1 : c ≠ ',' := by
    intro h
    subst h
    rw [show (',').toNat = 44 from rfl] at h1
    omega
  have hc2 : c ≠ '\x22' := by
    intro h
    subst h
    rw [show ('\x22').toNat = 34 from rfl] at h1
    omega
  have hc3 : c ≠ '\n' := by
    intro h
    subst h
    rw [show ('\n').toNat = 10 from rfl] at h1
    omega
  have hc4 : c ≠ '\r' := by
    intro h
    subst h
    rw [show ('\r').toNat = 13 from rfl] at h1
    omega
  simp [hc1, hc2, hc3, hc4]

theorem needsQuote_refId (i : Nat) : needsQuote (refId i) = false := by
  rw [needsQuote]
  rw [List.any_eq_false]
  intro c hc
  simp only [Bool.not_eq_true]
  have hc' : c ∈ ('T' :: 'R' :: 'X' :: '-' :: pad7digits i) := hc
  simp only [List.mem_cons] at hc'
  rcases hc' with h | h | h | h | h
  · subst h; rfl
  · subst h; rfl
  · subst h; rfl
  · subst h; rfl
  · rw [pad7digits] at h
    rcases List.mem_append.mp h with h | h
    · rw [List.eq_of_mem_replicate h]
      rfl
    · have hr := natDigitsAux_digit_range _ _ _ h
      exact digit_range_no_quote c hr.1 hr.2

theorem csvField_refId (i : Nat) : csvField (refId i) = refId i := by
  simp [csvField, needsQuote_refId]

theorem csv_foldl_shift (l : List String) :
    ∀ (a b : String),
      List.foldl (fun acc g => acc ++ ("," ++ csvField g)) (a ++ b) l
        = a ++ List.foldl (fun acc g => acc ++ ("," ++ csvField g)) b l := by
  induction l with
  | nil => intro a b; rfl
  | cons g l ih =>
    intro a b
    simp only [List.foldl_cons]
    rw [String.append_assoc]
    exact ih a (b ++ ("," ++ csvField g))

theorem csvLine_cons_cons (f g : String) (l : List String) :
    csvLine (f :: g :: l) =
      csvField f ++ ("," ++
        List.foldl (fun acc h => acc ++ ("," ++ csvField h)) (csvField g) l) := by
  show List.foldl _ (csvField f) (g :: l) = _
  simp only [List.foldl_cons]
  rw [csv_foldl_shift l (csvField f) ("," ++ csvField g),
    csv_foldl_shift l "," (csvField g)]

/-- C3 counterexample: the draw range of `unknown_account_number` is not
disjoint from the seeded account numbers — the draw `k = 544332211` yields the
candidate `5544332211`, which is a seeded account number lying between
`UNKNOWN_MIN` and `UNKNOWN_MAX`. -/
theorem C3_range_not_disjoint_counterexample :
    natToStr (unknown_candidate 544332211) ∈ seeded_numbers ∧
    "5544332211" ∈ seeded_numbers ∧
    UNKNOWN_MIN ≤ digitsVal ("5544332211").data ∧
    digitsVal ("5544332211").data ≤ UNKNOWN_MAX := by
  decide

/-- C3 (amended): the draw range `[UNKNOWN_MIN, UNKNOWN_MAX]` of
`unknown_account_number` overlaps the seeded account numbers: read as
integers, exactly five seeded account numbers fall inside it (5544332211,
6677889900, 9900112233, 7788990011, 7777888899); the other ten fall outside. -/
theorem C3_seeded_overlap_amended :
    (SEEDED_ACCOUNTS.filter (fun a =>
        decide (UNKNOWN_MIN ≤ digitsVal a.account_number.data) &&
        decide (digitsVal a.account_number.data ≤ UNKNOWN_MAX))).map
      (fun a => a.account_number)
    = ["5544332211", "6677889900", "9900112233", "7788990011", "7777888899"] := by
  decide

/-- C4 counterexample: the header line the writer produces differs from the
spec's claimed header string (the spec's version has a space after each
comma; `csv.writer` joins fields with a bare comma). -/
theorem C4_header_spec_string_counterexample :
    (gen_lines 0 oracle0).headD "" ≠ specClaimedHeaderLine := by
  decide

/-- C4 (amended): the first line of every run's output is exactly the
header fields joined by commas without spaces. -/
theorem C4_header_line_amended (n : Nat) (o : Nat → Draws) :
    (gen_lines n o).headD "" =
      "Reference ID,Source Account,Source Account Name,Source Bank Code,Beneficiary Account,Beneficiary Account Name,Beneficiary Bank Code,Currency,Amount,Transaction Type,Note" := by
  have h : csvLine header =
      "Reference ID,Source Account,Source Account Name,Source Bank Code,Beneficiary Account,Beneficiary Account Name,Beneficiary Bank Code,Currency,Amount,Transaction Type,Note" := by
    decide
  simpa [gen_lines] using h

/-- C6: for every configured transaction type, `pick_below_min_amount` stays
in `[1, min_amount - 1]` and below `min_amount` whenever `min_amount > 1`,
every value of that interval is reached by some draw, and it returns exactly
`0` whenever `min_amount ≤ 1`. -/
theorem C6_below_min_amount_bounds (t : TxLimit) (ht : t ∈ TRANSACTION_LIMITS) (k : Nat) :
    (1 < t.min_amount →
      1 ≤ pick_below_min_amount t.tx_type k ∧
      pick_below_min_amount t.tx_type k < t.min_amount ∧
      ∀ v, 1 ≤ v → v ≤ t.min_amount - 1 →
        ∃ k2, pick_below_min_amount t.tx_type k2 = v) ∧
    (t.min_amount ≤ 1 → pick_below_min_amount t.tx_type k = 0) := by
  have hl := tx_lookup_eq t ht
  constructor
  · intro hmin
    have hnle : ¬ (tx_limit_of t.tx_type).min_amount ≤ 1 := by
      rw [hl]
      omega
    have hb := randint_bounds 1 (t.min_amount - 1) k (by omega)
    refine ⟨?_, ?_, ?_⟩
    · rw [pick_below_min_amount, if_neg hnle, hl]
      exact hb.1
    · rw [pick_below_min_amount, if_neg hnle, hl]
      omega
    · intro v hv1 hv2
      refine ⟨v - 1, ?_⟩
      rw [pick_below_min_amount, if_neg hnle, hl]
      exact randint_hit 1 (t.min_amount - 1) v hv1 hv2
  · intro hmin
    have hle : (tx_limit_of t.tx_type).min_amount ≤ 1 := by
      rw [hl]
      exact hmin
    rw [pick_below_min_amount, if_pos hle]

/-- Closed instance of `C6_below_min_amount_bounds` for the TRANSFER type. -/
theorem C6_below_min_amount_bounds_witness :
    1 ≤ pick_below_min_amount "TRANSFER" 0 ∧
    pick_below_min_amount "TRANSFER" 0 < 10000 :=
  ⟨((C6_below_min_amount_bounds ⟨"TRANSFER", 10000, 1000000000⟩ (by decide) 0).1
      (by decide)).1,
   ((C6_below_min_amount_bounds ⟨"TRANSFER", 10000, 1000000000⟩ (by decide) 0).1
      (by decide)).2.1⟩

theorem pick_invalid_row_ref (i : Nat) (d : Draws) :
    (pick_invalid_row i d).ref = refId i := by
  simp only [pick_invalid_row]
  split
  · rfl
  · split
    · rfl
    · split
      · rfl
      · split
        · rfl
        · rfl

theorem row_at_ref (i : Nat) (d : Draws) : (row_at i d).ref = refId i := by
  rw [row_at]
  split
  · exact pick_invalid_row_ref i d
  · rfl

theorem gen_lines_length (n : Nat) (o : Nat → Draws) :
    (gen_lines n o).length = n + 1 := by
  simp [gen_lines, gen_rows]

theorem gen_rows_refs (n : Nat) (o : Nat → Draws) :
    (gen_rows n o).map Row.ref = (List.range' 1 n).map refId := by
  rw [gen_rows, List.map_map]
  exact List.map_congr_left (fun i _ => row_at_ref i (o i))

theorem gen_lines_data_line (n : Nat) (o : Nat → Draws) (i : Nat) (h : i < n) :
    ∃ rest, (gen_lines n o).getD (i + 1) "" = refId (i + 1) ++ ("," ++ rest) := by
  have hg : (gen_lines n o).getD (i + 1) ""
      = csvLine (rowFields (row_at (1 + i) (o (1 + i)))) := by
    rw [gen_lines, List.getD_cons_succ, gen_rows, List.map_map,
      List.getD_eq_getElem?_getD, List.getElem?_map, List.getElem?_range' 1 1 h]
    simp
  rw [hg, rowFields, csvLine_cons_cons, row_at_ref, csvField_refId, Nat.add_comm 1 i]
  exact ⟨_, rfl⟩

theorem gen_refs_increasing (n : Nat) (o : Nat → Draws) (i j : Nat)
    (hij : i < j) (hj : j < n) :
    refNum (((gen_rows n o).map Row.ref).getD i "") <
      refNum (((gen_rows n o).map Row.ref).getD j "") := by
  rw [gen_rows_refs]
  rw [List.getD_eq_getElem?_getD, List.getElem?_map,
    List.getElem?_range' 1 1 (by omega : i < n)]
  rw [List.getD_eq_getElem?_getD, List.getElem?_map, List.getElem?_range' 1 1 hj]
  simp [refNum_refId]
  omega

theorem gen_refs_nodup (n : Nat) (o : Nat → Draws) :
    ((gen_rows n o).map Row.ref).Nodup := by
  rw [gen_rows_refs]
  exact List.Nodup.map refId_injective (List.nodup_range' 1 n)

/-- C5: every run with `n` requested rows outputs `n + 1` lines (header plus
`n` data lines) no matter how the valid/invalid draws fall; the data line at
1-based position `i` starts with the reference id `TRX-` + `i` zero-padded to
7 digits followed by a comma; and the reference ids of the run are strictly
increasing in their numeric part, hence duplicate-free. -/
theorem C5_line_count_and_ref_ids (n : Nat) (o : Nat → Draws) :
    (gen_lines n o).length = n + 1 ∧
    (∀ i, i < n →
      ∃ rest, (gen_lines n o).getD (i + 1) "" = refId (i + 1) ++ ("," ++ rest)) ∧
    (∀ i j, i < j → j < n →
      refNum (((gen_rows n o).map Row.ref).getD i "") <
        refNum (((gen_rows n o).map Row.ref).getD j "")) ∧
    ((gen_rows n o).map Row.ref).Nodup :=
  ⟨gen_lines_length n o, fun i h => gen_lines_data_line n o i h,
   fun i j hij hj => gen_refs_increasing n o i j hij hj, gen_refs_nodup n o⟩

/-- Closed instance of `C5_line_count_and_ref_ids` at a 2-row run. -/
theorem C5_line_count_and_ref_ids_witness :
    (gen_lines 2 oracle0).length = 3 ∧
    (∃ rest, (gen_lines 2 oracle0).getD 1 "" = refId 1 ++ ("," ++ rest)) ∧
    refNum (((gen_rows 2 oracle0).map Row.ref).getD 0 "") <
      refNum (((gen_rows 2 oracle0).map Row.ref).getD 1 "") :=
  ⟨(C5_line_count_and_ref_ids 2 oracle0).1,
   (C5_line_count_and_ref_ids 2 oracle0).2.1 0 (by decide),
   (C5_line_count_and_ref_ids 2 oracle0).2.2.1 0 1 (by decide) (by decide)⟩

/-- C7: the generator is deterministic under a fixed seed — two runs whose
`--rows`, `--invalid-rate` and `--seed` parameters coincide produce identical
output line lists, because the whole run is a pure function of those three
values (the seeded draw stream is a deterministic function of the seed). -/
theorem C7_seeded_run_deterministic (rows1 rows2 rate1 rate2 seed1 seed2 : Nat)
    (hrows : rows1 = rows2) (hrate : rate1 = rate2) (hseed : seed1 = seed2) :
    run_with_seed rows1 rate1 seed1 = run_with_seed rows2 rate2 seed2 := by
  rw [hrows, hrate, hseed]

/-- Closed instance of `C7_seeded_run_deterministic` at concrete parameters. -/
theorem C7_seeded_run_deterministic_witness :
    run_with_seed 2 15 42 = run_with_seed 2 15 42 :=
  C7_seeded_run_deterministic 2 2 15 15 42 42 rfl rfl rfl

/-- C8 counterexample: the parser accepts the negative value `-5` for
`--rows` (Python `int("-5")` succeeds, argparse raises no error), and the run
then writes non-empty output — refuting both the claimed rejection of
negative `--rows` and the claimed absence of written output. -/
theorem C8_negative_rows_accepted_counterexample :
    parse_int "-5" = some (-5) ∧ gen_lines_int (-5) oracle0 ≠ [] := by
  decide

/-- C8 (amended): argparse validates only that `--rows` parses as an integer;
every parsed negative value is accepted, the row loop never runs, and the
output is exactly the single header line. -/
theorem C8_negative_rows_header_only (s : String) (z : Int) (o : Nat → Draws)
    (_hp : parse_int s = some z) (hz : z < 0) :
    gen_lines_int z o = [csvLine header] := by
  rw [gen_lines_int, Int.toNat_of_nonpos (le_of_lt hz)]
  rfl

/-- Closed instance of `C8_negative_rows_header_only` at `--rows -5`. -/
theorem C8_negative_rows_header_only_witness :
    gen_lines_int (-5) oracle0 = [csvLine header] :=
  C8_negative_rows_header_only "-5" (-5) oracle0 (by decide) (by decide)

/-- C9: the redraw loop of `unknown_account_number` terminates on every draw
stream that eventually produces a non-seeded candidate — and such candidates
exist because the seeded set does not cover the draw range — and its result
is always a 10-digit numeric string that is not a seeded account number. -/
theorem C9_unknown_account_number_ok (u : Nat → Nat)
    (h : ∃ j, natToStr (unknown_candidate (u j)) ∉ seeded_numbers) :
    (unknown_account_number u h).length = 10 ∧
    unknown_account_number u h ∉ seeded_numbers ∧
    (∃ v, UNKNOWN_MIN ≤ v ∧ v ≤ UNKNOWN_MAX ∧ natToStr v ∉ seeded_numbers) := by
  refine ⟨?_, Nat.find_spec h, ⟨5000000000, by decide, by decide, by decide⟩⟩
  have hb := randint_bounds UNKNOWN_MIN UNKNOWN_MAX (u (Nat.find h)) (by decide)
  have h1 : (5000000000 : Nat) ≤ unknown_candidate (u (Nat.find h)) := hb.1
  have h2 : unknown_candidate (u (Nat.find h)) ≤ 9999999999 := hb.2
  exact natToStr_length_ten _ (by omega) h2

/-- Closed instance of `C9_unknown_account_number_ok` on the constant-zero
draw stream (whose first candidate `5000000000` is already unseeded). -/
theorem C9_unknown_account_number_ok_witness :
    (unknown_account_number (fun _ => 0) ⟨0, by decide⟩).length = 10 ∧
    unknown_account_number (fun _ => 0) ⟨0, by decide⟩ ∉ seeded_numbers :=
  ⟨(C9_unknown_account_number_ok (fun _ => 0) ⟨0, by decide⟩).1,
   (C9_unknown_account_number_ok (fun _ => 0) ⟨0, by decide⟩).2.1⟩

end GenTx
